import Mathlib

/-!
Verification development for the StackerDB client of the stacks-signer
(source: stacks-signer/src/client/stackerdb.rs).

The client multiplexes message categories over per-category sessions,
keeps a cache of slot versions, publishes signed chunks under a retry
loop that self-heals version conflicts, and reads/decodes/filters
batched chunks.  External collaborators (the network session, the retry
policy, the codec and the signer) are modelled as oracles/parameters:
each network interaction's outcome is an explicit input.
-/

namespace StackerDBSpec

/-- Association-list lookup; model of HashMap::get. -/
def alistGet {α β : Type} [DecidableEq α] (l : List (α × β)) (k : α) : Option β :=
  match l with
  | [] => none
  | (k', v) :: rest => if k' = k then some v else alistGet rest k

/-- Association-list insert-or-overwrite; model of HashMap::insert. -/
def alistInsert {α β : Type} [DecidableEq α] (l : List (α × β)) (k : α) (v : β) :
    List (α × β) :=
  match l with
  | [] => [(k, v)]
  | (k', v') :: rest =>
    if k' = k then (k, v) :: rest else (k', v') :: alistInsert rest k v

/-- Modelled from the spec: the closed enumeration of message categories
(libsigner's MessageSlotID is outside the given sources; spec section 3
lists its members). -/
inductive MessageSlotID : Type
  | DkgBegin
  | DkgPublicShares
  | DkgPrivateBegin
  | DkgPrivateShares
  | DkgEndBegin
  | DkgEnd
  | Transactions
  | EncryptedSignerState
deriving DecidableEq

/-- Modelled from the spec: MessageSlotID::ALL, every member of the closed
enumeration (libsigner is outside the given sources). -/
def MessageSlotID.ALL : List MessageSlotID :=
  [MessageSlotID.DkgBegin, MessageSlotID.DkgPublicShares,
   MessageSlotID.DkgPrivateBegin, MessageSlotID.DkgPrivateShares,
   MessageSlotID.DkgEndBegin, MessageSlotID.DkgEnd,
   MessageSlotID.Transactions, MessageSlotID.EncryptedSignerState]

/-- The signer's slot index (newtype over u32). -/
structure SignerSlotID where
  id : Nat
deriving DecidableEq

/-- Modelled from the spec: a store-instance address, a deterministic
function of (category, network flavor, epoch) (spec section 6). -/
structure ContractId where
  msg_id : MessageSlotID
  is_mainnet : Bool
  reward_cycle : Nat
deriving DecidableEq

/-- Modelled from the spec: the category-to-store mapping (spec section 6). -/
def MessageSlotID.stacker_db_contract (m : MessageSlotID) (is_mainnet : Bool)
    (reward_cycle : Nat) : ContractId :=
  ⟨m, is_mainnet, reward_cycle⟩

/-- A session handle bound to one store instance (external collaborator;
only its identity matters here, its I/O is passed in as oracle data). -/
structure StackerDBSession where
  host : String
  stackerdb_contract_id : ContractId
deriving DecidableEq

def StackerDBSession.new (host : String) (contract : ContractId) : StackerDBSession :=
  ⟨host, contract⟩

/-- Rejection kinds of the store. -/
inductive StackerDBErrorCodes : Type
  | DataAlreadyExists
  | NoSuchSlot
deriving DecidableEq

/-- Modelled from the spec: rejection codes are small integers, with the
version-conflict kind (DataAlreadyExists) distinguished from every other
kind (spec section 6; blockstack_lib's poststackerdbchunk is outside the
given sources). -/
def StackerDBErrorCodes.from_code (code : Nat) : Option StackerDBErrorCodes :=
  match code with
  | 0 => some StackerDBErrorCodes.DataAlreadyExists
  | 1 => some StackerDBErrorCodes.NoSuchSlot
  | _ => none

/-- Authoritative slot metadata carried by a rejection acknowledgment. -/
structure SlotMetadata where
  slot_id : Nat
  slot_version : Nat
  data_hash : Nat
  signature : Nat
deriving DecidableEq

/-- The store's acknowledgment of a chunk write. -/
structure StackerDBChunkAckData where
  accepted : Bool
  reason : Option String
  metadata : Option SlotMetadata
  code : Option Nat
deriving DecidableEq

/-- Client-side error type (variants as used by stackerdb.rs; the enum
itself lives in the client module outside the given sources). -/
inductive ClientError : Type
  | NotConnected
  | PutChunkRejected (reason : String)
  | UnexpectedResponseFormat (message : String)
  | CodecError (message : String)
  | RequestFailure (message : String)
deriving DecidableEq

/-- A versioned chunk: slot id, slot version, payload bytes, signature. -/
structure StackerDBChunkData where
  slot_id : Nat
  slot_version : Nat
  data : List Nat
  sig : List Nat
deriving DecidableEq

/-- StackerDBChunkData::new: signature starts empty. -/
def StackerDBChunkData.new (slot_id : Nat) (slot_version : Nat) (data : List Nat) :
    StackerDBChunkData :=
  ⟨slot_id, slot_version, data, []⟩

/-- The external signing primitive (spec section 2 lists the Signer as an
external collaborator): a signature over (slot id, version, payload),
modelled as a total deterministic function of the key and those fields. -/
def StackerDBChunkData.sign (c : StackerDBChunkData) (key : Nat) : StackerDBChunkData :=
  { c with sig := key :: c.slot_id :: c.slot_version :: c.data }

/-- External wsts packet payload: abstract token. -/
structure Packet where
  msg : Nat
deriving DecidableEq

/-- External Stacks transaction: abstract token. -/
structure StacksTransaction where
  txid : Nat
deriving DecidableEq

/-- The tagged payload of an envelope: DKG packet, transaction list, or
encrypted-state blob. -/
inductive StackerDBMessage : Type
  | Packet (packet : Packet)
  | Transactions (txs : List StacksTransaction)
  | EncryptedSignerState (state : List Nat)
deriving DecidableEq

/-- The envelope (SignerMessage): an epoch (reward cycle) tag and a payload. -/
structure SignerMessage where
  reward_cycle : Nat
  message : StackerDBMessage
deriving DecidableEq

/-- u32::MAX. -/
def u32Max : Nat := 4294967295

/-- u32 saturating_add 1 (every version handled by the client is a u32,
so stays ≤ u32Max). -/
def satAdd1 (v : Nat) : Nat := min (v + 1) u32Max

/-- u64 wrapping addition modulus (reward_cycle.wrapping_add). -/
def u64Wrap (n : Nat) : Nat := n % 18446744073709551616

/-- The slot-version cache: category to (slot id to next version). -/
abbrev SlotVersions := List (MessageSlotID × List (SignerSlotID × Nat))

/-- Two-level cache lookup. -/
def alistGet2 (sv : SlotVersions) (msg_id : MessageSlotID) (slot_id : SignerSlotID) :
    Option Nat :=
  match alistGet sv msg_id with
  | none => none
  | some versions => alistGet versions slot_id

/-- The StackerDB client state (stackerdb.rs lines 34-48). -/
structure StackerDB where
  signers_message_stackerdb_sessions : List (MessageSlotID × StackerDBSession)
  stacks_private_key : Nat
  slot_versions : SlotVersions
  signer_slot_id : SignerSlotID
  reward_cycle : Nat
  next_transaction_session : StackerDBSession
deriving DecidableEq

/-- StackerDB::new (lines 63-91): one session per member of
MessageSlotID::ALL for the current cycle, plus the look-ahead transaction
session for the next cycle; the cache starts empty. -/
def StackerDB.new (host : String) (stacks_private_key : Nat) (is_mainnet : Bool)
    (reward_cycle : Nat) (signer_slot_id : SignerSlotID) : StackerDB :=
  { signers_message_stackerdb_sessions :=
      MessageSlotID.ALL.foldl
        (fun acc msg_id =>
          alistInsert acc msg_id
            (StackerDBSession.new host
              (msg_id.stacker_db_contract is_mainnet reward_cycle)))
        []
    stacks_private_key := stacks_private_key
    slot_versions := []
    signer_slot_id := signer_slot_id
    reward_cycle := reward_cycle
    next_transaction_session :=
      StackerDBSession.new host
        (MessageSlotID.Transactions.stacker_db_contract is_mainnet
          (u64Wrap (reward_cycle + 1))) }

/-- Terminal outcome of the publish loop. -/
inductive SendOutcome : Type
  | ok (ack : StackerDBChunkAckData)
  | err (e : ClientError)
  | panicked
  | outOfFuel
deriving DecidableEq

/-- Result of a publish call: outcome, final cache, and the chunks whose
write was attempted, in order. -/
structure SendResult where
  outcome : SendOutcome
  slot_versions : SlotVersions
  attempts : List StackerDBChunkData
deriving DecidableEq

/-- The slot versions of the attempted writes, in order. -/
def SendResult.attemptVersions (r : SendResult) : List Nat :=
  r.attempts.map (fun c => c.slot_version)

/-- Whether one loop iteration returns or loops again. -/
inductive IterStep : Type
  | ret (outcome : SendOutcome)
  | again
deriving DecidableEq

/-- Observable effect of one loop iteration: the control step, the cache
right after the unconditional post-put advance (line 147; none when no
put completed), the cache at the end of the iteration, and the chunk
whose write was attempted (none when the missing-session panic fired
before the put). -/
structure IterResult where
  step : IterStep
  svPostPut : Option SlotVersions
  sv : SlotVersions
  attempted : Option StackerDBChunkData
deriving DecidableEq

/-- Lines 116-128: read the cached version for (msg_id, slot_id), or seed
the entry at 0 and use version 1 for this attempt. -/
def lookupOrSeedVersion (sv : SlotVersions) (msg_id : MessageSlotID)
    (slot_id : SignerSlotID) : Nat × SlotVersions :=
  match alistGet sv msg_id with
  | some versions =>
    match alistGet versions slot_id with
    | some version => (version, sv)
    | none => (1, alistInsert sv msg_id (alistInsert versions slot_id 0))
  | none => (1, alistInsert sv msg_id [(slot_id, 0)])

/-- One iteration of the send_message_bytes_with_retry loop (lines
116-183).  resp is the outcome of put_chunk under the retry policy
(line 142-143): ok gives the acknowledgment, error is a propagated
transport failure. -/
def send_loop_body (key : Nat) (sessions : List (MessageSlotID × StackerDBSession))
    (msg_id : MessageSlotID) (slot_id : SignerSlotID) (message_bytes : List Nat)
    (resp : Except ClientError StackerDBChunkAckData) (sv : SlotVersions) : IterResult :=
  match lookupOrSeedVersion sv msg_id slot_id with
  | (slot_version, sv1) =>
    let chunk := (StackerDBChunkData.new slot_id.id slot_version message_bytes).sign key
    match alistGet sessions msg_id with
    | none => ⟨IterStep.ret SendOutcome.panicked, none, sv1, none⟩
    | some _session =>
      match resp with
      | Except.error e => ⟨IterStep.ret (SendOutcome.err e), none, sv1, some chunk⟩
      | Except.ok chunk_ack =>
        match alistGet sv1 msg_id with
        | none =>
          ⟨IterStep.ret (SendOutcome.err ClientError.NotConnected), none, sv1, some chunk⟩
        | some versions =>
          let svPost :=
            alistInsert sv1 msg_id (alistInsert versions slot_id (satAdd1 slot_version))
          if chunk_ack.accepted then
            ⟨IterStep.ret (SendOutcome.ok chunk_ack), some svPost, svPost, some chunk⟩
          else
            match chunk_ack.code with
            | none => ⟨IterStep.again, some svPost, svPost, some chunk⟩
            | some code =>
              match StackerDBErrorCodes.from_code code with
              | some StackerDBErrorCodes.DataAlreadyExists =>
                let slot_version2 :=
                  match chunk_ack.metadata with
                  | some slot_metadata => slot_metadata.slot_version
                  | none => slot_version
                match alistGet svPost msg_id with
                | none =>
                  ⟨IterStep.ret (SendOutcome.err ClientError.NotConnected), some svPost,
                    svPost, some chunk⟩
                | some versions2 =>
                  ⟨IterStep.again, some svPost,
                    alistInsert svPost msg_id
                      (alistInsert versions2 slot_id (satAdd1 slot_version2)),
                    some chunk⟩
              | _ =>
                ⟨IterStep.ret (SendOutcome.err (ClientError.PutChunkRejected
                    (chunk_ack.reason.getD "No reason given"))),
                  some svPost, svPost, some chunk⟩

/-- send_message_bytes_with_retry (lines 109-185) as a fueled loop over
an oracle of put outcomes: responses k is the outcome of the k-th put
attempt.  Fuel bounds the number of iterations (the source loops
unboundedly); outOfFuel marks an unfinished run. -/
def sendMessageLoop (key : Nat) (sessions : List (MessageSlotID × StackerDBSession))
    (msg_id : MessageSlotID) (slot_id : SignerSlotID) (message_bytes : List Nat)
    (responses : Nat → Except ClientError StackerDBChunkAckData) (k : Nat)
    (sv : SlotVersions) (fuel : Nat) : SendResult :=
  match fuel with
  | 0 => ⟨SendOutcome.outOfFuel, sv, []⟩
  | Nat.succ fuel' =>
    let r := send_loop_body key sessions msg_id slot_id message_bytes (responses k) sv
    match r.step with
    | IterStep.ret outcome => ⟨outcome, r.sv, r.attempted.toList⟩
    | IterStep.again =>
      let rest := sendMessageLoop key sessions msg_id slot_id message_bytes responses
        (k + 1) r.sv fuel'
      ⟨rest.outcome, rest.slot_versions, r.attempted.toList ++ rest.attempts⟩

/-- The client-level publish operation, threading the client state. -/
def StackerDB.send_message_bytes_with_retry (db : StackerDB) (msg_id : MessageSlotID)
    (message_bytes : List Nat)
    (responses : Nat → Except ClientError StackerDBChunkAckData) (fuel : Nat) :
    SendResult × StackerDB :=
  let r := sendMessageLoop db.stacks_private_key db.signers_message_stackerdb_sessions
    msg_id db.signer_slot_id message_bytes responses 0 db.slot_versions fuel
  (r, { db with slot_versions := r.slot_versions })

/-- The decode-and-filter loop of get_messages (lines 201-216): skip an
absent chunk; skip undecodable bytes (logged only); skip an envelope
whose reward cycle differs from the requested one; keep the rest in
request order.  decode is the external envelope codec. -/
def collectMessages (decode : List Nat → Option SignerMessage)
    (chunks : List (Option (List Nat))) (reward_cycle : Nat) : List SignerMessage :=
  match chunks with
  | [] => []
  | none :: rest => collectMessages decode rest reward_cycle
  | some data :: rest =>
    match decode data with
    | none => collectMessages decode rest reward_cycle
    | some message =>
      if message.reward_cycle ≠ reward_cycle then collectMessages decode rest reward_cycle
      else message :: collectMessages decode rest reward_cycle

/-- get_messages (lines 189-218): fetched is the outcome of
get_latest_chunks under the retry policy; on success the chunks are
decoded and filtered. -/
def get_messages (decode : List Nat → Option SignerMessage)
    (fetched : Except ClientError (List (Option (List Nat))))
    (reward_cycle : Nat) : Except ClientError (List SignerMessage) :=
  match fetched with
  | Except.error e => Except.error e
  | Except.ok chunk_ack => Except.ok (collectMessages decode chunk_ack reward_cycle)

/-- Lines 242-245: keep an envelope's payload only if it is a packet;
anything else in a packet slot is skipped with a warning. -/
def packetOfMessage (m : SignerMessage) : Option Packet :=
  match m.message with
  | StackerDBMessage.Packet packet => some packet
  | _ => none

/-- Lines 225-232: the fixed protocol order of the DKG categories. -/
def packet_slots : List MessageSlotID :=
  [MessageSlotID.DkgBegin, MessageSlotID.DkgPublicShares,
   MessageSlotID.DkgPrivateBegin, MessageSlotID.DkgPrivateShares,
   MessageSlotID.DkgEndBegin, MessageSlotID.DkgEnd]

/-- The category loop of get_dkg_packets (lines 235-248): for each
category in order look up its session (NotConnected when absent), fetch
and decode that category's chunks, and append the packet payloads.  env
gives each category's fetched chunk list (the get_latest_chunks outcome
for that category's session). -/
def dkgPacketsLoop (sessions : List (MessageSlotID × StackerDBSession))
    (decode : List Nat → Option SignerMessage)
    (env : MessageSlotID → Except ClientError (List (Option (List Nat))))
    (reward_cycle : Nat) :
    List MessageSlotID → List Packet → Except ClientError (List Packet)
  | [], packets => Except.ok packets
  | packet_slot :: rest, packets =>
    match alistGet sessions packet_slot with
    | none => Except.error ClientError.NotConnected
    | some _session =>
      match get_messages decode (env packet_slot) reward_cycle with
      | Except.error e => Except.error e
      | Except.ok signer_messages =>
        dkgPacketsLoop sessions decode env reward_cycle rest
          (packets ++ signer_messages.filterMap packetOfMessage)

/-- get_dkg_packets (lines 221-250). -/
def StackerDB.get_dkg_packets (db : StackerDB)
    (decode : List Nat → Option SignerMessage)
    (env : MessageSlotID → Except ClientError (List (Option (List Nat)))) :
    Except ClientError (List Packet) :=
  dkgPacketsLoop db.signers_message_stackerdb_sessions decode env db.reward_cycle
    packet_slots []

/-- Lines 261-268: flatten the transaction lists of the envelopes,
skipping (with a warning) any payload of the wrong variant. -/
def transactionsOfMessages (msgs : List SignerMessage) : List StacksTransaction :=
  msgs.foldl
    (fun acc m =>
      match m.message with
      | StackerDBMessage.Transactions txs => acc ++ txs
      | _ => acc)
    []

/-- get_transactions (lines 253-270). -/
def get_transactions (decode : List Nat → Option SignerMessage)
    (fetched : Except ClientError (List (Option (List Nat))))
    (reward_cycle : Nat) : Except ClientError (List StacksTransaction) :=
  match get_messages decode fetched reward_cycle with
  | Except.error e => Except.error e
  | Except.ok signer_messages => Except.ok (transactionsOfMessages signer_messages)

/-- get_current_transactions (lines 273-285). -/
def StackerDB.get_current_transactions (db : StackerDB)
    (decode : List Nat → Option SignerMessage)
    (fetched : Except ClientError (List (Option (List Nat)))) :
    Except ClientError (List StacksTransaction) :=
  match alistGet db.signers_message_stackerdb_sessions MessageSlotID.Transactions with
  | none => Except.error ClientError.NotConnected
  | some _transactions_session => get_transactions decode fetched db.reward_cycle

/-- get_next_transactions (lines 288-298): the look-ahead session and the
next reward cycle. -/
def StackerDB.get_next_transactions (db : StackerDB)
    (decode : List Nat → Option SignerMessage)
    (fetched : Except ClientError (List (Option (List Nat)))) :
    Except ClientError (List StacksTransaction) :=
  get_transactions decode fetched (u64Wrap (db.reward_cycle + 1))

/-- get_encrypted_signer_state (lines 301-343).  decodeMessage is the
external StackerDBMessage codec (read_next), whose failure is a codec
error; fetched is the get_latest_chunks outcome for the single requested
slot.  Vec::pop takes the last element of the returned list. -/
def StackerDB.get_encrypted_signer_state (db : StackerDB)
    (decodeMessage : List Nat → Except String StackerDBMessage)
    (fetched : Except ClientError (List (Option (List Nat))))
    (signer_id : SignerSlotID) : Except ClientError (Option (List Nat)) :=
  match alistGet db.signers_message_stackerdb_sessions MessageSlotID.EncryptedSignerState with
  | none => Except.error ClientError.NotConnected
  | some _state_session =>
    match fetched with
    | Except.error e => Except.error e
    | Except.ok chunks =>
      match chunks.getLast? with
      | none =>
        Except.error (ClientError.UnexpectedResponseFormat
          ("Missing response for state session request for signer " ++ toString signer_id.id))
      | some none => Except.ok none
      | some (some chunk) =>
        if chunk.isEmpty then Except.ok none
        else
          match decodeMessage chunk with
          | Except.error e => Except.error (ClientError.CodecError e)
          | Except.ok (StackerDBMessage.EncryptedSignerState state) => Except.ok (some state)
          | Except.ok _ => Except.ok none

/-- An acknowledgment that accepts the write. -/
def acceptedAck : StackerDBChunkAckData :=
  { accepted := true, reason := none, metadata := none, code := none }

/-- A version-conflict rejection carrying authoritative metadata with
slot version v (code 0 is DataAlreadyExists). -/
def conflictAck (v : Nat) : StackerDBChunkAckData :=
  { accepted := false, reason := none,
    metadata := some { slot_id := 3, slot_version := v, data_hash := 0, signature := 0 },
    code := some 0 }

/-- A rejection with neither code nor metadata. -/
def rejectNoCodeAck : StackerDBChunkAckData :=
  { accepted := false, reason := none, metadata := none, code := none }

/-- An oracle whose every put is accepted. -/
def acceptedOracle : Nat → Except ClientError StackerDBChunkAckData :=
  fun _ => Except.ok acceptedAck

/-- The cache after n publish calls that are each accepted on their first
attempt (conflict-free successful writes), starting from the empty cache. -/
def svAfterCalls (key : Nat) (sessions : List (MessageSlotID × StackerDBSession))
    (msg_id : MessageSlotID) (slot_id : SignerSlotID) (message_bytes : List Nat) :
    Nat → SlotVersions
  | 0 => []
  | n + 1 =>
    (sendMessageLoop key sessions msg_id slot_id message_bytes acceptedOracle 0
      (svAfterCalls key sessions msg_id slot_id message_bytes n) 1).slot_versions

/-- The versions attempted by call n+1 of that conflict-free sequence
(indexed by the n calls already made). -/
def attemptsOfCall (key : Nat) (sessions : List (MessageSlotID × StackerDBSession))
    (msg_id : MessageSlotID) (slot_id : SignerSlotID) (message_bytes : List Nat)
    (n : Nat) : List Nat :=
  (sendMessageLoop key sessions msg_id slot_id message_bytes acceptedOracle 0
    (svAfterCalls key sessions msg_id slot_id message_bytes n) 1).attemptVersions

/-- A concrete client fixture for witnesses and counterexamples. -/
def exClient : StackerDB := StackerDB.new "host" 11 true 7 ⟨3⟩

/-- Its session table. -/
def exSessions : List (MessageSlotID × StackerDBSession) :=
  exClient.signers_message_stackerdb_sessions

/-- Oracle of the spec's conflict scenario: the first put is rejected
with a version conflict whose metadata reports version 9; every later
put is accepted. -/
def c1Responses : Nat → Except ClientError StackerDBChunkAckData :=
  fun k =>
    match k with
    | 0 => Except.ok (conflictAck 9)
    | _ => Except.ok acceptedAck

/-- Oracle refuting the no-code-rejection clause: the first put is
rejected without a code; every later put is accepted. -/
def c2Responses : Nat → Except ClientError StackerDBChunkAckData :=
  fun k =>
    match k with
    | 0 => Except.ok rejectNoCodeAck
    | _ => Except.ok acceptedAck

/-- A rejection with a non-conflict code (1 is NoSuchSlot) and a reason. -/
def rejectBadCodeAck : StackerDBChunkAckData :=
  { accepted := false, reason := some "bad", metadata := none, code := some 1 }

/-- An oracle that always rejects with a non-conflict code. -/
def badCodeOracle : Nat → Except ClientError StackerDBChunkAckData :=
  fun _ => Except.ok rejectBadCodeAck

/-- Oracle steering the cache to the u32 saturation boundary: the first
put is rejected with a conflict whose metadata reports u32Max - 1; the
second is rejected without a code. -/
def c4Responses : Nat → Except ClientError StackerDBChunkAckData :=
  fun k =>
    match k with
    | 0 => Except.ok (conflictAck (u32Max - 1))
    | _ => Except.ok rejectNoCodeAck

/-- A concrete envelope codec for witnesses. -/
def exDecode : List Nat → Option SignerMessage :=
  fun data =>
    match data with
    | [1] => some ⟨7, StackerDBMessage.Packet ⟨10⟩⟩
    | [2] => some ⟨8, StackerDBMessage.Packet ⟨20⟩⟩
    | [3] => some ⟨7, StackerDBMessage.Transactions [⟨30⟩]⟩
    | [4] => some ⟨7, StackerDBMessage.Packet ⟨40⟩⟩
    | _ => none

/-- A concrete StackerDBMessage codec for witnesses. -/
def exDecodeMsg : List Nat → Except String StackerDBMessage :=
  fun data =>
    match data with
    | [5] => Except.ok (StackerDBMessage.Packet ⟨50⟩)
    | [6] => Except.ok (StackerDBMessage.EncryptedSignerState [1, 2])
    | _ => Except.error "bad"

/-- Concrete per-category chunk data for the DKG read witness: the
DkgBegin slot holds a packet envelope, DkgPublicShares holds a
transactions envelope (wrong variant for a packet slot), DkgEnd holds a
packet envelope, everything else is empty. -/
def exDkgChunks : MessageSlotID → List (Option (List Nat)) :=
  fun s =>
    match s with
    | MessageSlotID.DkgBegin => [some [4]]
    | MessageSlotID.DkgPublicShares => [some [3]]
    | MessageSlotID.DkgEnd => [some [1]]
    | _ => []

/-- The corresponding per-category fetch outcomes (all successful). -/
def exDkgEnv : MessageSlotID → Except ClientError (List (Option (List Nat))) :=
  fun s => Except.ok (exDkgChunks s)

/-! ### Helper lemmas -/

theorem alistGet_insert_self {α β : Type} [DecidableEq α] (l : List (α × β)) (k : α)
    (v : β) : alistGet (alistInsert l k v) k = some v := by
  induction l with
  | nil => simp [alistInsert, alistGet]
  | cons hd tl ih =>
    obtain ⟨k1, v1⟩ := hd
    by_cases h : k1 = k
    · subst h
      simp [alistInsert, alistGet]
    · simp [alistInsert, alistGet, h, ih]

theorem satAdd1_of_lt {v : Nat} (h : v < u32Max) : satAdd1 v = v + 1 := by
  unfold satAdd1
  unfold u32Max at h ⊢
  omega

theorem satAdd1_min (m : Nat) : satAdd1 (min m u32Max) = min (m + 1) u32Max := by
  unfold satAdd1
  unfold u32Max
  omega

theorem lookupOrSeed_of_some {sv : SlotVersions} {msg_id : MessageSlotID}
    {slot_id : SignerSlotID} {v : Nat} (h : alistGet2 sv msg_id slot_id = some v) :
    lookupOrSeedVersion sv msg_id slot_id = (v, sv) := by
  unfold alistGet2 at h
  cases h1 : alistGet sv msg_id with
  | none => simp [h1] at h
  | some versions =>
    cases h2 : alistGet versions slot_id with
    | none => simp [h1, h2] at h
    | some w =>
      simp [h1, h2] at h
      simp [lookupOrSeedVersion, h1, h2, h]

theorem lookupOrSeed_of_none {sv : SlotVersions} {msg_id : MessageSlotID}
    {slot_id : SignerSlotID} (h : alistGet2 sv msg_id slot_id = none) :
    (lookupOrSeedVersion sv msg_id slot_id).1 = 1 ∧
      alistGet2 (lookupOrSeedVersion sv msg_id slot_id).2 msg_id slot_id = some 0 := by
  unfold alistGet2 at h
  cases h1 : alistGet sv msg_id with
  | none =>
    constructor
    · simp [lookupOrSeedVersion, h1]
    · simp [lookupOrSeedVersion, h1, alistGet2, alistGet_insert_self, alistGet]
  | some versions =>
    cases h2 : alistGet versions slot_id with
    | none =>
      constructor
      · simp [lookupOrSeedVersion, h1, h2]
      · simp [lookupOrSeedVersion, h1, h2, alistGet2, alistGet_insert_self]
    | some w => simp [h1, h2] at h

theorem lookupOrSeed_outer_some (sv : SlotVersions) (msg_id : MessageSlotID)
    (slot_id : SignerSlotID) :
    ∃ versions, alistGet (lookupOrSeedVersion sv msg_id slot_id).2 msg_id
      = some versions := by
  cases h1 : alistGet sv msg_id with
  | none =>
    refine ⟨[(slot_id, 0)], ?_⟩
    simp [lookupOrSeedVersion, h1, alistGet_insert_self]
  | some versions =>
    cases h2 : alistGet versions slot_id with
    | none =>
      refine ⟨alistInsert versions slot_id 0, ?_⟩
      simp [lookupOrSeedVersion, h1, h2, alistGet_insert_self]
    | some w =>
      refine ⟨versions, ?_⟩
      simp [lookupOrSeedVersion, h1, h2]

theorem send_loop_body_attempted (key : Nat)
    (sessions : List (MessageSlotID × StackerDBSession)) (msg_id : MessageSlotID)
    (slot_id : SignerSlotID) (message_bytes : List Nat)
    (resp : Except ClientError StackerDBChunkAckData) (sv : SlotVersions)
    (hsess : (alistGet sessions msg_id).isSome = true) :
    (send_loop_body key sessions msg_id slot_id message_bytes resp sv).attempted
      = some ((StackerDBChunkData.new slot_id.id
          (lookupOrSeedVersion sv msg_id slot_id).1 message_bytes).sign key) := by
  obtain ⟨sess, hs⟩ := Option.isSome_iff_exists.mp hsess
  obtain ⟨versions, hv⟩ := lookupOrSeed_outer_some sv msg_id slot_id
  unfold send_loop_body
  cases hL : lookupOrSeedVersion sv msg_id slot_id with
  | mk v sv1 =>
    rw [hL] at hv
    simp only [] at hv
    cases resp with
    | error e => simp [hs]
    | ok ack =>
      rcases ack with ⟨acc, reason, md, code⟩
      cases acc with
      | true => simp [hs, hv]
      | false =>
        cases code with
        | none => simp [hs, hv]
        | some c =>
          cases hc : StackerDBErrorCodes.from_code c with
          | none => simp [hs, hv, hc]
          | some ec =>
            cases ec with
            | NoSuchSlot => simp [hs, hv, hc]
            | DataAlreadyExists =>
              cases md with
              | none => simp [hs, hv, hc, alistGet_insert_self]
              | some m => simp [hs, hv, hc, alistGet_insert_self]

theorem chunk_slot_version (i v : Nat) (b : List Nat) (k : Nat) :
    ((StackerDBChunkData.new i v b).sign k).slot_version = v := rfl

theorem send_loop_body_accepted (key : Nat)
    (sessions : List (MessageSlotID × StackerDBSession)) (msg_id : MessageSlotID)
    (slot_id : SignerSlotID) (message_bytes : List Nat) (ack : StackerDBChunkAckData)
    (sv : SlotVersions) (hsess : (alistGet sessions msg_id).isSome = true)
    (hacc : ack.accepted = true) :
    (send_loop_body key sessions msg_id slot_id message_bytes (Except.ok ack) sv).step
        = IterStep.ret (SendOutcome.ok ack)
      ∧ alistGet2
          (send_loop_body key sessions msg_id slot_id message_bytes (Except.ok ack) sv).sv
          msg_id slot_id
        = some (satAdd1 (lookupOrSeedVersion sv msg_id slot_id).1) := by
  obtain ⟨sess, hs⟩ := Option.isSome_iff_exists.mp hsess
  obtain ⟨versions, hv⟩ := lookupOrSeed_outer_some sv msg_id slot_id
  unfold send_loop_body
  cases hL : lookupOrSeedVersion sv msg_id slot_id with
  | mk v sv1 =>
    rw [hL] at hv
    simp only [] at hv
    rcases ack with ⟨acc, reason, md, code⟩
    simp only [] at hacc
    subst hacc
    simp [hs, hv, alistGet2, alistGet_insert_self]

theorem send_loop_body_conflict_md (key : Nat)
    (sessions : List (MessageSlotID × StackerDBSession)) (msg_id : MessageSlotID)
    (slot_id : SignerSlotID) (message_bytes : List Nat) (ack : StackerDBChunkAckData)
    (sv : SlotVersions) (c : Nat) (md : SlotMetadata)
    (hsess : (alistGet sessions msg_id).isSome = true)
    (hacc : ack.accepted = false) (hcode : ack.code = some c)
    (hfc : StackerDBErrorCodes.from_code c = some StackerDBErrorCodes.DataAlreadyExists)
    (hmd : ack.metadata = some md) :
    (send_loop_body key sessions msg_id slot_id message_bytes (Except.ok ack) sv).step
        = IterStep.again
      ∧ alistGet2
          (send_loop_body key sessions msg_id slot_id message_bytes (Except.ok ack) sv).sv
          msg_id slot_id
        = some (satAdd1 md.slot_version) := by
  obtain ⟨sess, hs⟩ := Option.isSome_iff_exists.mp hsess
  obtain ⟨versions, hv⟩ := lookupOrSeed_outer_some sv msg_id slot_id
  unfold send_loop_body
  cases hL : lookupOrSeedVersion sv msg_id slot_id with
  | mk v sv1 =>
    rw [hL] at hv
    simp only [] at hv
    rcases ack with ⟨acc, reason, md0, code0⟩
    simp only [] at hacc hcode hmd
    subst hacc
    subst hcode
    subst hmd
    simp [hs, hv, hfc, alistGet2, alistGet_insert_self]

theorem send_loop_body_nocode (key : Nat)
    (sessions : List (MessageSlotID × StackerDBSession)) (msg_id : MessageSlotID)
    (slot_id : SignerSlotID) (message_bytes : List Nat) (ack : StackerDBChunkAckData)
    (sv : SlotVersions) (hsess : (alistGet sessions msg_id).isSome = true)
    (hacc : ack.accepted = false) (hcode : ack.code = none) :
    (send_loop_body key sessions msg_id slot_id message_bytes (Except.ok ack) sv).step
        = IterStep.again
      ∧ alistGet2
          (send_loop_body key sessions msg_id slot_id message_bytes (Except.ok ack) sv).sv
          msg_id slot_id
        = some (satAdd1 (lookupOrSeedVersion sv msg_id slot_id).1) := by
  obtain ⟨sess, hs⟩ := Option.isSome_iff_exists.mp hsess
  obtain ⟨versions, hv⟩ := lookupOrSeed_outer_some sv msg_id slot_id
  unfold send_loop_body
  cases hL : lookupOrSeedVersion sv msg_id slot_id with
  | mk v sv1 =>
    rw [hL] at hv
    simp only [] at hv
    rcases ack with ⟨acc, reason, md, code⟩
    simp only [] at hacc hcode
    subst hacc
    subst hcode
    simp [hs, hv, alistGet2, alistGet_insert_self]

theorem send_loop_body_badcode (key : Nat)
    (sessions : List (MessageSlotID × StackerDBSession)) (msg_id : MessageSlotID)
    (slot_id : SignerSlotID) (message_bytes : List Nat) (ack : StackerDBChunkAckData)
    (sv : SlotVersions) (c : Nat) (hsess : (alistGet sessions msg_id).isSome = true)
    (hacc : ack.accepted = false) (hcode : ack.code = some c)
    (hfc : StackerDBErrorCodes.from_code c ≠ some StackerDBErrorCodes.DataAlreadyExists) :
    (send_loop_body key sessions msg_id slot_id message_bytes (Except.ok ack) sv).step
      = IterStep.ret (SendOutcome.err (ClientError.PutChunkRejected
          (ack.reason.getD "No reason given"))) := by
  obtain ⟨sess, hs⟩ := Option.isSome_iff_exists.mp hsess
  obtain ⟨versions, hv⟩ := lookupOrSeed_outer_some sv msg_id slot_id
  unfold send_loop_body
  cases hL : lookupOrSeedVersion sv msg_id slot_id with
  | mk v sv1 =>
    rw [hL] at hv
    simp only [] at hv
    rcases ack with ⟨acc, reason, md, code0⟩
    simp only [] at hacc hcode
    subst hacc
    subst hcode
    cases hc : StackerDBErrorCodes.from_code c with
    | none => simp [hs, hv, hc]
    | some ec =>
      cases ec with
      | DataAlreadyExists => exact absurd hc hfc
      | NoSuchSlot => simp [hs, hv, hc]

theorem send_loop_body_postput (key : Nat)
    (sessions : List (MessageSlotID × StackerDBSession)) (msg_id : MessageSlotID)
    (slot_id : SignerSlotID) (message_bytes : List Nat) (ack : StackerDBChunkAckData)
    (sv : SlotVersions) (hsess : (alistGet sessions msg_id).isSome = true) :
    ∃ svp,
      (send_loop_body key sessions msg_id slot_id message_bytes (Except.ok ack) sv).svPostPut
          = some svp
        ∧ alistGet2 svp msg_id slot_id
          = some (satAdd1 (lookupOrSeedVersion sv msg_id slot_id).1) := by
  obtain ⟨sess, hs⟩ := Option.isSome_iff_exists.mp hsess
  obtain ⟨versions, hv⟩ := lookupOrSeed_outer_some sv msg_id slot_id
  unfold send_loop_body
  cases hL : lookupOrSeedVersion sv msg_id slot_id with
  | mk v sv1 =>
    rw [hL] at hv
    simp only [] at hv
    rcases ack with ⟨acc, reason, md, code⟩
    cases acc with
    | true => simp [hs, hv, alistGet2, alistGet_insert_self]
    | false =>
      cases code with
      | none => simp [hs, hv, alistGet2, alistGet_insert_self]
      | some c =>
        cases hc : StackerDBErrorCodes.from_code c with
        | none => simp [hs, hv, hc, alistGet2, alistGet_insert_self]
        | some ec =>
          cases ec with
          | NoSuchSlot => simp [hs, hv, hc, alistGet2, alistGet_insert_self]
          | DataAlreadyExists =>
            cases md with
            | none => simp [hs, hv, hc, alistGet2, alistGet_insert_self]
            | some m => simp [hs, hv, hc, alistGet2, alistGet_insert_self]

theorem send_loop_body_not_panicked (key : Nat)
    (sessions : List (MessageSlotID × StackerDBSession)) (msg_id : MessageSlotID)
    (slot_id : SignerSlotID) (message_bytes : List Nat)
    (resp : Except ClientError StackerDBChunkAckData) (sv : SlotVersions)
    (hsess : (alistGet sessions msg_id).isSome = true) :
    (send_loop_body key sessions msg_id slot_id message_bytes resp sv).step
      ≠ IterStep.ret SendOutcome.panicked := by
  obtain ⟨sess, hs⟩ := Option.isSome_iff_exists.mp hsess
  obtain ⟨versions, hv⟩ := lookupOrSeed_outer_some sv msg_id slot_id
  unfold send_loop_body
  cases hL : lookupOrSeedVersion sv msg_id slot_id with
  | mk v sv1 =>
    rw [hL] at hv
    simp only [] at hv
    cases resp with
    | error e => simp [hs]
    | ok ack =>
      rcases ack with ⟨acc, reason, md, code⟩
      cases acc with
      | true => simp [hs, hv]
      | false =>
        cases code with
        | none => simp [hs, hv]
        | some c =>
          cases hc : StackerDBErrorCodes.from_code c with
          | none => simp [hs, hv, hc]
          | some ec =>
            cases ec with
            | NoSuchSlot => simp [hs, hv, hc]
            | DataAlreadyExists =>
              cases md with
              | none => simp [hs, hv, hc, alistGet_insert_self]
              | some m => simp [hs, hv, hc, alistGet_insert_self]

theorem sendMessageLoop_ret {key : Nat}
    {sessions : List (MessageSlotID × StackerDBSession)} {msg_id : MessageSlotID}
    {slot_id : SignerSlotID} {message_bytes : List Nat}
    {responses : Nat → Except ClientError StackerDBChunkAckData} {k : Nat}
    {sv : SlotVersions} {fuel : Nat} {outcome : SendOutcome}
    (h : (send_loop_body key sessions msg_id slot_id message_bytes (responses k) sv).step
      = IterStep.ret outcome) :
    sendMessageLoop key sessions msg_id slot_id message_bytes responses k sv (fuel + 1)
      = ⟨outcome,
         (send_loop_body key sessions msg_id slot_id message_bytes (responses k) sv).sv,
         (send_loop_body key sessions msg_id slot_id message_bytes
           (responses k) sv).attempted.toList⟩ := by
  rw [sendMessageLoop]
  rw [h]

theorem sendMessageLoop_again {key : Nat}
    {sessions : List (MessageSlotID × StackerDBSession)} {msg_id : MessageSlotID}
    {slot_id : SignerSlotID} {message_bytes : List Nat}
    {responses : Nat → Except ClientError StackerDBChunkAckData} {k : Nat}
    {sv : SlotVersions} {fuel : Nat}
    (h : (send_loop_body key sessions msg_id slot_id message_bytes (responses k) sv).step
      = IterStep.again) :
    sendMessageLoop key sessions msg_id slot_id message_bytes responses k sv (fuel + 1)
      = ⟨(sendMessageLoop key sessions msg_id slot_id message_bytes responses (k + 1)
            (send_loop_body key sessions msg_id slot_id message_bytes
              (responses k) sv).sv fuel).outcome,
         (sendMessageLoop key sessions msg_id slot_id message_bytes responses (k + 1)
            (send_loop_body key sessions msg_id slot_id message_bytes
              (responses k) sv).sv fuel).slot_versions,
         (send_loop_body key sessions msg_id slot_id message_bytes
            (responses k) sv).attempted.toList
           ++ (sendMessageLoop key sessions msg_id slot_id message_bytes responses (k + 1)
                (send_loop_body key sessions msg_id slot_id message_bytes
                  (responses k) sv).sv fuel).attempts⟩ := by
  rw [sendMessageLoop]
  rw [h]

theorem accepted_call_of_entry (key : Nat)
    (sessions : List (MessageSlotID × StackerDBSession)) (msg_id : MessageSlotID)
    (slot_id : SignerSlotID) (message_bytes : List Nat) {sv : SlotVersions} {v : Nat}
    (hsess : (alistGet sessions msg_id).isSome = true)
    (hv : alistGet2 sv msg_id slot_id = some v) :
    (sendMessageLoop key sessions msg_id slot_id message_bytes acceptedOracle 0
        sv 1).outcome = SendOutcome.ok acceptedAck
      ∧ (sendMessageLoop key sessions msg_id slot_id message_bytes acceptedOracle 0
          sv 1).attemptVersions = [v]
      ∧ alistGet2 (sendMessageLoop key sessions msg_id slot_id message_bytes
          acceptedOracle 0 sv 1).slot_versions msg_id slot_id = some (satAdd1 v) := by
  have hL := lookupOrSeed_of_some hv
  have hacc := send_loop_body_accepted key sessions msg_id slot_id message_bytes
    acceptedAck sv hsess rfl
  have hatt := send_loop_body_attempted key sessions msg_id slot_id message_bytes
    (Except.ok acceptedAck) sv hsess
  rw [hL] at hacc hatt
  have hacc2 : alistGet2 (send_loop_body key sessions msg_id slot_id message_bytes
      (acceptedOracle 0) sv).sv msg_id slot_id = some (satAdd1 v) := hacc.2
  have hatt2 : (send_loop_body key sessions msg_id slot_id message_bytes
      (acceptedOracle 0) sv).attempted
      = some ((StackerDBChunkData.new slot_id.id v message_bytes).sign key) := hatt
  have hloop := @sendMessageLoop_ret key sessions msg_id slot_id message_bytes
    acceptedOracle 0 sv 0 _ hacc.1
  simp only [Nat.zero_add] at hloop
  rw [hloop]
  refine ⟨rfl, ?_, ?_⟩
  · simp [SendResult.attemptVersions, hatt2, StackerDBChunkData.new,
      StackerDBChunkData.sign]
  · exact hacc2

theorem accepted_call_of_absent (key : Nat)
    (sessions : List (MessageSlotID × StackerDBSession)) (msg_id : MessageSlotID)
    (slot_id : SignerSlotID) (message_bytes : List Nat) {sv : SlotVersions}
    (hsess : (alistGet sessions msg_id).isSome = true)
    (hv : alistGet2 sv msg_id slot_id = none) :
    (sendMessageLoop key sessions msg_id slot_id message_bytes acceptedOracle 0
        sv 1).outcome = SendOutcome.ok acceptedAck
      ∧ (sendMessageLoop key sessions msg_id slot_id message_bytes acceptedOracle 0
          sv 1).attemptVersions = [1]
      ∧ alistGet2 (sendMessageLoop key sessions msg_id slot_id message_bytes
          acceptedOracle 0 sv 1).slot_versions msg_id slot_id = some 2 := by
  have hone := (lookupOrSeed_of_none hv).1
  have hacc := send_loop_body_accepted key sessions msg_id slot_id message_bytes
    acceptedAck sv hsess rfl
  have hatt := send_loop_body_attempted key sessions msg_id slot_id message_bytes
    (Except.ok acceptedAck) sv hsess
  rw [hone] at hacc hatt
  have hsat : satAdd1 1 = 2 := satAdd1_of_lt (by decide)
  rw [hsat] at hacc
  have hacc2 : alistGet2 (send_loop_body key sessions msg_id slot_id message_bytes
      (acceptedOracle 0) sv).sv msg_id slot_id = some 2 := hacc.2
  have hatt2 : (send_loop_body key sessions msg_id slot_id message_bytes
      (acceptedOracle 0) sv).attempted
      = some ((StackerDBChunkData.new slot_id.id 1 message_bytes).sign key) := hatt
  have hloop := @sendMessageLoop_ret key sessions msg_id slot_id message_bytes
    acceptedOracle 0 sv 0 _ hacc.1
  simp only [Nat.zero_add] at hloop
  rw [hloop]
  refine ⟨rfl, ?_, ?_⟩
  · simp [SendResult.attemptVersions, hatt2, StackerDBChunkData.new,
      StackerDBChunkData.sign]
  · exact hacc2

theorem svAfterCalls_entry (key : Nat)
    (sessions : List (MessageSlotID × StackerDBSession)) (msg_id : MessageSlotID)
    (slot_id : SignerSlotID) (message_bytes : List Nat)
    (hsess : (alistGet sessions msg_id).isSome = true) :
    ∀ n, alistGet2 (svAfterCalls key sessions msg_id slot_id message_bytes (n + 1))
      msg_id slot_id = some (min (n + 2) u32Max) := by
  intro n
  induction n with
  | zero =>
    have h0 : alistGet2 ([] : SlotVersions) msg_id slot_id = none := rfl
    have h := accepted_call_of_absent key sessions msg_id slot_id message_bytes hsess h0
    have hmin : (2 : Nat) = min (0 + 2) u32Max := by
      unfold u32Max
      omega
    rw [svAfterCalls, ← hmin]
    exact h.2.2
  | succ m ih =>
    have h := accepted_call_of_entry key sessions msg_id slot_id message_bytes hsess ih
    have hsat : satAdd1 (min (m + 2) u32Max) = min (m + 1 + 2) u32Max := by
      rw [satAdd1_min]
    rw [svAfterCalls, ← hsat]
    exact h.2.2

theorem attemptsOfCall_eq (key : Nat)
    (sessions : List (MessageSlotID × StackerDBSession)) (msg_id : MessageSlotID)
    (slot_id : SignerSlotID) (message_bytes : List Nat)
    (hsess : (alistGet sessions msg_id).isSome = true) :
    ∀ n, attemptsOfCall key sessions msg_id slot_id message_bytes n
      = [min (n + 1) u32Max] := by
  intro n
  cases n with
  | zero =>
    have h0 : alistGet2 ([] : SlotVersions) msg_id slot_id = none := rfl
    have h := accepted_call_of_absent key sessions msg_id slot_id message_bytes hsess h0
    have hmin : min (0 + 1) u32Max = 1 := by
      unfold u32Max
      omega
    rw [attemptsOfCall, hmin]
    exact h.2.1
  | succ m =>
    have hent := svAfterCalls_entry key sessions msg_id slot_id message_bytes hsess m
    have h := accepted_call_of_entry key sessions msg_id slot_id message_bytes hsess hent
    have hmin : min (m + 2) u32Max = min (m + 1 + 1) u32Max := rfl
    rw [attemptsOfCall, ← hmin]
    exact h.2.1

theorem sendMessageLoop_not_panicked (key : Nat)
    (sessions : List (MessageSlotID × StackerDBSession)) (msg_id : MessageSlotID)
    (slot_id : SignerSlotID) (message_bytes : List Nat)
    (responses : Nat → Except ClientError StackerDBChunkAckData)
    (hsess : (alistGet sessions msg_id).isSome = true) :
    ∀ fuel k sv,
      (sendMessageLoop key sessions msg_id slot_id message_bytes responses k sv
        fuel).outcome ≠ SendOutcome.panicked := by
  intro fuel
  induction fuel with
  | zero =>
    intro k sv
    simp [sendMessageLoop]
  | succ m ih =>
    intro k sv
    cases hstep : (send_loop_body key sessions msg_id slot_id message_bytes
        (responses k) sv).step with
    | ret outcome =>
      rw [sendMessageLoop_ret hstep]
      have hnp := send_loop_body_not_panicked key sessions msg_id slot_id message_bytes
        (responses k) sv hsess
      rw [hstep] at hnp
      intro hcontra
      exact hnp (congrArg IterStep.ret hcontra)
    | again =>
      rw [sendMessageLoop_again hstep]
      exact ih (k + 1) _

theorem sendMessageLoop_attempts_len (key : Nat)
    (sessions : List (MessageSlotID × StackerDBSession)) (msg_id : MessageSlotID)
    (slot_id : SignerSlotID) (message_bytes : List Nat)
    (responses : Nat → Except ClientError StackerDBChunkAckData) (k : Nat)
    (sv : SlotVersions) (fuel : Nat)
    (hsess : (alistGet sessions msg_id).isSome = true) :
    1 ≤ (sendMessageLoop key sessions msg_id slot_id message_bytes responses k sv
      (fuel + 1)).attempts.length := by
  have hatt := send_loop_body_attempted key sessions msg_id slot_id message_bytes
    (responses k) sv hsess
  cases hstep : (send_loop_body key sessions msg_id slot_id message_bytes
      (responses k) sv).step with
  | ret outcome =>
    rw [sendMessageLoop_ret hstep]
    simp [hatt]
  | again =>
    rw [sendMessageLoop_again hstep]
    simp [hatt]

theorem collectMessages_reward_cycle (decode : List Nat → Option SignerMessage)
    (reward_cycle : Nat) :
    ∀ chunks m, m ∈ collectMessages decode chunks reward_cycle →
      m.reward_cycle = reward_cycle := by
  intro chunks
  induction chunks with
  | nil =>
    intro m hm
    simp [collectMessages] at hm
  | cons c rest ih =>
    intro m hm
    cases c with
    | none =>
      rw [collectMessages] at hm
      exact ih m hm
    | some data =>
      cases hd : decode data with
      | none =>
        rw [collectMessages, hd] at hm
        exact ih m hm
      | some message =>
        rw [collectMessages, hd] at hm
        by_cases h : message.reward_cycle = reward_cycle
        · simp only [h, ne_eq, not_true_eq_false, if_false] at hm
          rcases List.mem_cons.mp hm with rfl | hm'
          · exact h
          · exact ih m hm'
        · simp only [ne_eq, h, not_false_eq_true, if_true] at hm
          exact ih m hm

theorem collectMessages_all_skipped (decode : List Nat → Option SignerMessage)
    (reward_cycle : Nat) :
    ∀ chunks,
      (∀ c ∈ chunks, ∀ data, c = some data → decode data = none) →
      collectMessages decode chunks reward_cycle = [] := by
  intro chunks
  induction chunks with
  | nil =>
    intro _
    simp [collectMessages]
  | cons c rest ih =>
    intro h
    have hrest := ih (fun c' hc' data hd => h c' (List.mem_cons_of_mem _ hc') data hd)
    cases c with
    | none =>
      rw [collectMessages]
      exact hrest
    | some data =>
      have hdec := h (some data) (List.mem_cons_self (some data) rest) data rfl
      rw [collectMessages, hdec]
      exact hrest

theorem dkgPacketsLoop_ok (sessions : List (MessageSlotID × StackerDBSession))
    (decode : List Nat → Option SignerMessage)
    (env : MessageSlotID → Except ClientError (List (Option (List Nat))))
    (reward_cycle : Nat) (chunksF : MessageSlotID → List (Option (List Nat))) :
    ∀ slots acc,
      (∀ s ∈ slots, (alistGet sessions s).isSome = true) →
      (∀ s ∈ slots, env s = Except.ok (chunksF s)) →
      dkgPacketsLoop sessions decode env reward_cycle slots acc
        = Except.ok (acc ++ (slots.map (fun s =>
            (collectMessages decode (chunksF s) reward_cycle).filterMap
              packetOfMessage)).flatten) := by
  intro slots
  induction slots with
  | nil =>
    intro acc _ _
    simp [dkgPacketsLoop]
  | cons s rest ih =>
    intro acc hsess henv
    obtain ⟨sess, hs'⟩ :=
      Option.isSome_iff_exists.mp (hsess s (List.mem_cons_self s rest))
    have he := henv s (List.mem_cons_self s rest)
    rw [dkgPacketsLoop, hs', he]
    simp only [get_messages]
    rw [ih _ (fun c hc => hsess c (List.mem_cons_of_mem _ hc))
      (fun c hc => henv c (List.mem_cons_of_mem _ hc))]
    simp [List.append_assoc]

theorem get_messages_error {decode : List Nat → Option SignerMessage}
    {fetched : Except ClientError (List (Option (List Nat)))} {reward_cycle : Nat}
    {e : ClientError}
    (h : get_messages decode fetched reward_cycle = Except.error e) :
    fetched = Except.error e := by
  cases fetched with
  | error e' =>
    simp only [get_messages] at h
    injection h with h2
    rw [h2]
  | ok chunks => simp [get_messages] at h

theorem dkgPacketsLoop_notConnected
    (sessions : List (MessageSlotID × StackerDBSession))
    (decode : List Nat → Option SignerMessage)
    (env : MessageSlotID → Except ClientError (List (Option (List Nat))))
    (reward_cycle : Nat) :
    ∀ slots acc, (∀ s ∈ slots, (alistGet sessions s).isSome = true) →
      dkgPacketsLoop sessions decode env reward_cycle slots acc
          = Except.error ClientError.NotConnected →
      ∃ s, s ∈ slots ∧ env s = Except.error ClientError.NotConnected := by
  intro slots
  induction slots with
  | nil =>
    intro acc _ h
    simp [dkgPacketsLoop] at h
  | cons s rest ih =>
    intro acc hsess h
    obtain ⟨sess, hs'⟩ :=
      Option.isSome_iff_exists.mp (hsess s (List.mem_cons_self s rest))
    rw [dkgPacketsLoop, hs'] at h
    cases he : env s with
    | error e' =>
      rw [he] at h
      simp only [get_messages] at h
      injection h with h2
      exact ⟨s, List.mem_cons_self s rest, by rw [he, h2]⟩
    | ok chunks =>
      rw [he] at h
      simp only [get_messages] at h
      obtain ⟨s', hmem, henv⟩ :=
        ih _ (fun c hc => hsess c (List.mem_cons_of_mem _ hc)) h
      exact ⟨s', List.mem_cons_of_mem _ hmem, henv⟩

theorem new_sessions_isSome (host : String) (key : Nat) (is_mainnet : Bool)
    (reward_cycle : Nat) (slot : SignerSlotID) (msg_id : MessageSlotID) :
    (alistGet (StackerDB.new host key is_mainnet reward_cycle
      slot).signers_message_stackerdb_sessions msg_id).isSome = true := by
  cases msg_id <;> rfl

/-! ### Claim theorems -/

/-- C1 counterexample: the spec scenario (cached version 5 for slot 3, a
write rejected as a version conflict with authoritative metadata version
9, then an accepted retry) does NOT retry with version 9 and end with
cache 10.  The loop corrects the cache to 9 + 1 = 10 and the retried
write uses version 10; on acceptance the cache holds 11. -/
theorem C1_counterexample :
    (sendMessageLoop 11 exSessions MessageSlotID.Transactions ⟨3⟩ [7, 7] c1Responses 0
        [(MessageSlotID.Transactions, [(⟨3⟩, 5)])] 2).attemptVersions = [5, 10]
      ∧ (sendMessageLoop 11 exSessions MessageSlotID.Transactions ⟨3⟩ [7, 7]
          c1Responses 0 [(MessageSlotID.Transactions, [(⟨3⟩, 5)])]
          2).attemptVersions[1]? ≠ some 9
      ∧ alistGet2 (sendMessageLoop 11 exSessions MessageSlotID.Transactions ⟨3⟩ [7, 7]
          c1Responses 0 [(MessageSlotID.Transactions, [(⟨3⟩, 5)])] 2).slot_versions
          MessageSlotID.Transactions ⟨3⟩ ≠ some 10
      ∧ alistGet2 (sendMessageLoop 11 exSessions MessageSlotID.Transactions ⟨3⟩ [7, 7]
          c1Responses 0 [(MessageSlotID.Transactions, [(⟨3⟩, 5)])] 2).slot_versions
          MessageSlotID.Transactions ⟨3⟩ = some 11
      ∧ (sendMessageLoop 11 exSessions MessageSlotID.Transactions ⟨3⟩ [7, 7]
          c1Responses 0 [(MessageSlotID.Transactions, [(⟨3⟩, 5)])] 2).outcome
          = SendOutcome.ok acceptedAck := by
  refine ⟨rfl, by decide, by decide, rfl, rfl⟩

/-- C1 (amended): if a write is rejected with the version-conflict code
and authoritative metadata reporting slot version V (with V + 1 below
the u32 saturation bound), the next write attempt uses exactly V + 1,
and if that retried write is accepted the cache entry for the slot holds
V + 2. -/
theorem C1_amended (key : Nat) (sessions : List (MessageSlotID × StackerDBSession))
    (msg_id : MessageSlotID) (slot_id : SignerSlotID) (message_bytes : List Nat)
    (sv : SlotVersions) (responses : Nat → Except ClientError StackerDBChunkAckData)
    (fuel : Nat) (ack1 ack2 : StackerDBChunkAckData) (c : Nat) (md : SlotMetadata)
    (hsess : (alistGet sessions msg_id).isSome = true)
    (h0 : responses 0 = Except.ok ack1)
    (hacc1 : ack1.accepted = false)
    (hcode1 : ack1.code = some c)
    (hfc : StackerDBErrorCodes.from_code c = some StackerDBErrorCodes.DataAlreadyExists)
    (hmd : ack1.metadata = some md)
    (hlt : md.slot_version + 1 < u32Max)
    (h1 : responses 1 = Except.ok ack2)
    (hacc2 : ack2.accepted = true) :
    (sendMessageLoop key sessions msg_id slot_id message_bytes responses 0 sv
        (fuel + 2)).attemptVersions[1]? = some (md.slot_version + 1)
      ∧ alistGet2 (sendMessageLoop key sessions msg_id slot_id message_bytes responses
          0 sv (fuel + 2)).slot_versions msg_id slot_id = some (md.slot_version + 2)
      ∧ (sendMessageLoop key sessions msg_id slot_id message_bytes responses 0 sv
          (fuel + 2)).outcome = SendOutcome.ok ack2 := by
  have hb1pre := send_loop_body_conflict_md key sessions msg_id slot_id message_bytes
    ack1 sv c md hsess hacc1 hcode1 hfc hmd
  have hb1 : (send_loop_body key sessions msg_id slot_id message_bytes (responses 0)
        sv).step = IterStep.again
      ∧ alistGet2 (send_loop_body key sessions msg_id slot_id message_bytes
          (responses 0) sv).sv msg_id slot_id = some (satAdd1 md.slot_version) := by
    rw [h0]
    exact hb1pre
  have hatt1 := send_loop_body_attempted key sessions msg_id slot_id message_bytes
    (responses 0) sv hsess
  have hL1 := @sendMessageLoop_again key sessions msg_id slot_id message_bytes
    responses 0 sv (fuel + 1) hb1.1
  have hsat1 : satAdd1 md.slot_version = md.slot_version + 1 :=
    satAdd1_of_lt (by omega)
  have hv2 : alistGet2 (send_loop_body key sessions msg_id slot_id message_bytes
      (responses 0) sv).sv msg_id slot_id = some (md.slot_version + 1) := by
    rw [← hsat1]
    exact hb1.2
  have hseed2 := lookupOrSeed_of_some hv2
  have hb2pre := send_loop_body_accepted key sessions msg_id slot_id message_bytes ack2
    ((send_loop_body key sessions msg_id slot_id message_bytes (responses 0) sv).sv)
    hsess hacc2
  rw [hseed2] at hb2pre
  have hb2 : (send_loop_body key sessions msg_id slot_id message_bytes (responses 1)
        ((send_loop_body key sessions msg_id slot_id message_bytes (responses 0)
          sv).sv)).step = IterStep.ret (SendOutcome.ok ack2)
      ∧ alistGet2 (send_loop_body key sessions msg_id slot_id message_bytes
          (responses 1) ((send_loop_body key sessions msg_id slot_id message_bytes
            (responses 0) sv).sv)).sv msg_id slot_id
        = some (satAdd1 (md.slot_version + 1)) := by
    rw [h1]
    exact hb2pre
  have hatt2pre := send_loop_body_attempted key sessions msg_id slot_id message_bytes
    (responses 1)
    ((send_loop_body key sessions msg_id slot_id message_bytes (responses 0) sv).sv)
    hsess
  rw [hseed2] at hatt2pre
  have hatt2 : (send_loop_body key sessions msg_id slot_id message_bytes (responses 1)
      ((send_loop_body key sessions msg_id slot_id message_bytes (responses 0)
        sv).sv)).attempted
      = some ((StackerDBChunkData.new slot_id.id (md.slot_version + 1)
          message_bytes).sign key) := hatt2pre
  have hsat2 : satAdd1 (md.slot_version + 1) = md.slot_version + 2 :=
    satAdd1_of_lt hlt
  have hb2step : (send_loop_body key sessions msg_id slot_id message_bytes
      (responses (0 + 1)) ((send_loop_body key sessions msg_id slot_id message_bytes
        (responses 0) sv).sv)).step = IterStep.ret (SendOutcome.ok ack2) := hb2.1
  have hL2 := @sendMessageLoop_ret key sessions msg_id slot_id message_bytes
    responses (0 + 1)
    ((send_loop_body key sessions msg_id slot_id message_bytes (responses 0) sv).sv)
    fuel _ hb2step
  rw [hL1, hL2]
  refine ⟨?_, ?_, rfl⟩
  · simp only [SendResult.attemptVersions]
    rw [hatt1]
    have hatt2' : (send_loop_body key sessions msg_id slot_id message_bytes
        (responses (0 + 1)) ((send_loop_body key sessions msg_id slot_id message_bytes
          (responses 0) sv).sv)).attempted
        = some ((StackerDBChunkData.new slot_id.id (md.slot_version + 1)
            message_bytes).sign key) := hatt2
    rw [hatt2']
    simp [StackerDBChunkData.new, StackerDBChunkData.sign]
  · have hentry : alistGet2 (send_loop_body key sessions msg_id slot_id message_bytes
        (responses (0 + 1)) ((send_loop_body key sessions msg_id slot_id message_bytes
          (responses 0) sv).sv)).sv msg_id slot_id
        = some (satAdd1 (md.slot_version + 1)) := hb2.2
    rw [hentry, hsat2]

/-- C1 witness: the amended statement at the concrete conflict scenario
(metadata version 9): the retry uses version 10 and on acceptance the
cache holds 11. -/
theorem C1_witness :
    (sendMessageLoop 11 exSessions MessageSlotID.Transactions ⟨3⟩ [7, 7] c1Responses 0
        [(MessageSlotID.Transactions, [(⟨3⟩, 5)])] 2).attemptVersions[1]? = some 10
      ∧ alistGet2 (sendMessageLoop 11 exSessions MessageSlotID.Transactions ⟨3⟩ [7, 7]
          c1Responses 0 [(MessageSlotID.Transactions, [(⟨3⟩, 5)])] 2).slot_versions
          MessageSlotID.Transactions ⟨3⟩ = some 11
      ∧ (sendMessageLoop 11 exSessions MessageSlotID.Transactions ⟨3⟩ [7, 7]
          c1Responses 0 [(MessageSlotID.Transactions, [(⟨3⟩, 5)])] 2).outcome
          = SendOutcome.ok acceptedAck :=
  C1_amended 11 exSessions MessageSlotID.Transactions ⟨3⟩ [7, 7]
    [(MessageSlotID.Transactions, [(⟨3⟩, 5)])] c1Responses 0 (conflictAck 9)
    acceptedAck 0 ⟨3, 9, 0, 0⟩ rfl rfl rfl rfl rfl rfl (by decide) rfl rfl

/-- C2 counterexample: a rejection carrying NO code at all is not a
terminal error — the loop silently retries with the advanced version:
starting from an empty cache, with the first put rejected without a code
and the second accepted, the call returns the acceptance (no error) and
two writes were attempted (versions 1 then 2). -/
theorem C2_counterexample :
    (sendMessageLoop 11 exSessions MessageSlotID.Transactions ⟨3⟩ [7, 7] c2Responses 0
        [] 2).outcome = SendOutcome.ok acceptedAck
      ∧ (sendMessageLoop 11 exSessions MessageSlotID.Transactions ⟨3⟩ [7, 7]
          c2Responses 0 [] 2).attemptVersions = [1, 2]
      ∧ ∀ e : ClientError,
          (sendMessageLoop 11 exSessions MessageSlotID.Transactions ⟨3⟩ [7, 7]
            c2Responses 0 [] 2).outcome ≠ SendOutcome.err e := by
  refine ⟨rfl, rfl, ?_⟩
  intro e h
  have hok : (sendMessageLoop 11 exSessions MessageSlotID.Transactions ⟨3⟩ [7, 7]
      c2Responses 0 [] 2).outcome = SendOutcome.ok acceptedAck := rfl
  rw [hok] at h
  exact SendOutcome.noConfusion h

/-- C2 (amended): a rejection whose code is present but is not the
version-conflict code is terminal — the call returns the
PutChunkRejected error carrying the rejection reason and attempts no
further write; a rejection carrying no code at all is NOT terminal: the
loop issues at least a second write attempt. -/
theorem C2_amended :
    (∀ (key : Nat) (sessions : List (MessageSlotID × StackerDBSession))
        (msg_id : MessageSlotID) (slot_id : SignerSlotID) (message_bytes : List Nat)
        (responses : Nat → Except ClientError StackerDBChunkAckData) (k : Nat)
        (sv : SlotVersions) (fuel : Nat) (ack : StackerDBChunkAckData) (c : Nat),
        (alistGet sessions msg_id).isSome = true →
        responses k = Except.ok ack →
        ack.accepted = false →
        ack.code = some c →
        StackerDBErrorCodes.from_code c ≠ some StackerDBErrorCodes.DataAlreadyExists →
        (sendMessageLoop key sessions msg_id slot_id message_bytes responses k sv
            (fuel + 1)).outcome
          = SendOutcome.err (ClientError.PutChunkRejected
              (ack.reason.getD "No reason given"))
        ∧ (sendMessageLoop key sessions msg_id slot_id message_bytes responses k sv
            (fuel + 1)).attemptVersions.length = 1)
    ∧ (∀ (key : Nat) (sessions : List (MessageSlotID × StackerDBSession))
        (msg_id : MessageSlotID) (slot_id : SignerSlotID) (message_bytes : List Nat)
        (responses : Nat → Except ClientError StackerDBChunkAckData) (k : Nat)
        (sv : SlotVersions) (fuel : Nat) (ack : StackerDBChunkAckData),
        (alistGet sessions msg_id).isSome = true →
        responses k = Except.ok ack →
        ack.accepted = false →
        ack.code = none →
        2 ≤ (sendMessageLoop key sessions msg_id slot_id message_bytes responses k sv
          (fuel + 2)).attempts.length) := by
  constructor
  · intro key sessions msg_id slot_id message_bytes responses k sv fuel ack c hsess h0
      hacc hcode hfc
    have hbpre := send_loop_body_badcode key sessions msg_id slot_id message_bytes ack
      sv c hsess hacc hcode hfc
    have hb : (send_loop_body key sessions msg_id slot_id message_bytes (responses k)
        sv).step = IterStep.ret (SendOutcome.err (ClientError.PutChunkRejected
          (ack.reason.getD "No reason given"))) := by
      rw [h0]
      exact hbpre
    have hatt := send_loop_body_attempted key sessions msg_id slot_id message_bytes
      (responses k) sv hsess
    rw [sendMessageLoop_ret hb]
    refine ⟨rfl, ?_⟩
    simp [SendResult.attemptVersions, hatt]
  · intro key sessions msg_id slot_id message_bytes responses k sv fuel ack hsess h0
      hacc hcode
    have hbpre := send_loop_body_nocode key sessions msg_id slot_id message_bytes ack
      sv hsess hacc hcode
    have hb : (send_loop_body key sessions msg_id slot_id message_bytes (responses k)
        sv).step = IterStep.again := by
      rw [h0]
      exact hbpre.1
    have hatt := send_loop_body_attempted key sessions msg_id slot_id message_bytes
      (responses k) sv hsess
    rw [sendMessageLoop_again hb]
    have hrest := sendMessageLoop_attempts_len key sessions msg_id slot_id
      message_bytes responses (k + 1)
      ((send_loop_body key sessions msg_id slot_id message_bytes (responses k) sv).sv)
      fuel hsess
    simp only [hatt]
    simp only [Option.toList_some, List.length_append, List.length_cons,
      List.length_nil]
    omega

/-- C2 witness: both amended clauses at concrete inputs — a NoSuchSlot
(code 1) rejection terminates with the store's reason after exactly one
attempt, and a no-code rejection leads to a second write attempt. -/
theorem C2_witness :
    ((sendMessageLoop 11 exSessions MessageSlotID.Transactions ⟨3⟩ [7, 7]
          badCodeOracle 0 [] 1).outcome
        = SendOutcome.err (ClientError.PutChunkRejected "bad")
      ∧ (sendMessageLoop 11 exSessions MessageSlotID.Transactions ⟨3⟩ [7, 7]
          badCodeOracle 0 [] 1).attemptVersions.length = 1)
    ∧ 2 ≤ (sendMessageLoop 11 exSessions MessageSlotID.Transactions ⟨3⟩ [7, 7]
        c2Responses 0 [] 2).attempts.length :=
  ⟨C2_amended.1 11 exSessions MessageSlotID.Transactions ⟨3⟩ [7, 7] badCodeOracle 0
      [] 0 rejectBadCodeAck 1 rfl rfl rfl rfl (by decide),
   C2_amended.2 11 exSessions MessageSlotID.Transactions ⟨3⟩ [7, 7] c2Responses 0
      [] 0 rejectNoCodeAck rfl rfl rfl rfl⟩

/-- C3 counterexample: in an endless conflict-free accepted sequence the
attempted version saturates at u32::MAX instead of increasing by one
forever: call number u32Max (0-indexed u32Max - 1) and call number
u32Max + 1 (0-indexed u32Max) both attempt version u32Max, so the
version of a call is not always one greater than its predecessor's. -/
theorem C3_counterexample :
    attemptsOfCall 11 exSessions MessageSlotID.Transactions ⟨3⟩ [7, 7] (u32Max - 1)
        = [u32Max]
      ∧ attemptsOfCall 11 exSessions MessageSlotID.Transactions ⟨3⟩ [7, 7] u32Max
        = [u32Max]
      ∧ attemptsOfCall 11 exSessions MessageSlotID.Transactions ⟨3⟩ [7, 7] u32Max
        ≠ [u32Max + 1] := by
  have h1 := attemptsOfCall_eq 11 exSessions MessageSlotID.Transactions ⟨3⟩ [7, 7]
    rfl (u32Max - 1)
  have h2 := attemptsOfCall_eq 11 exSessions MessageSlotID.Transactions ⟨3⟩ [7, 7]
    rfl u32Max
  have e1 : min (u32Max - 1 + 1) u32Max = u32Max := by
    unfold u32Max
    omega
  have e2 : min (u32Max + 1) u32Max = u32Max := by
    unfold u32Max
    omega
  rw [e1] at h1
  rw [e2] at h2
  refine ⟨h1, h2, ?_⟩
  rw [h2]
  intro hcontra
  have : u32Max = u32Max + 1 := List.head_eq_of_cons_eq hcontra
  omega

/-- C3 (amended): in a conflict-free sequence of accepted writes to one
(category, slot id) starting from the empty cache, call n + 1 attempts
exactly version min (n + 1) u32Max; in particular the versions are
exactly 1, 2, 3, ... for every call up to the u32 bound, the first call
using version 1 after seeding the cache at 0. -/
theorem C3_amended (key : Nat) (sessions : List (MessageSlotID × StackerDBSession))
    (msg_id : MessageSlotID) (slot_id : SignerSlotID) (message_bytes : List Nat)
    (hsess : (alistGet sessions msg_id).isSome = true) :
    (∀ n, attemptsOfCall key sessions msg_id slot_id message_bytes n
        = [min (n + 1) u32Max])
      ∧ (∀ n, n + 1 ≤ u32Max →
          attemptsOfCall key sessions msg_id slot_id message_bytes n = [n + 1]) := by
  constructor
  · exact attemptsOfCall_eq key sessions msg_id slot_id message_bytes hsess
  · intro n hn
    rw [attemptsOfCall_eq key sessions msg_id slot_id message_bytes hsess n]
    rw [min_eq_left hn]

/-- C3 witness: the first three conflict-free accepted calls attempt
versions 1, 2, 3. -/
theorem C3_witness :
    attemptsOfCall 11 exSessions MessageSlotID.Transactions ⟨3⟩ [7, 7] 0 = [1]
      ∧ attemptsOfCall 11 exSessions MessageSlotID.Transactions ⟨3⟩ [7, 7] 1 = [2]
      ∧ attemptsOfCall 11 exSessions MessageSlotID.Transactions ⟨3⟩ [7, 7] 2 = [3] :=
  ⟨(C3_amended 11 exSessions MessageSlotID.Transactions ⟨3⟩ [7, 7] rfl).2 0
      (by decide),
   (C3_amended 11 exSessions MessageSlotID.Transactions ⟨3⟩ [7, 7] rfl).2 1
      (by decide),
   (C3_amended 11 exSessions MessageSlotID.Transactions ⟨3⟩ [7, 7] rfl).2 2
      (by decide)⟩

/-- C4 counterexample: the post-attempt cache advance and the conflict
correction both saturate at u32::MAX (saturating_add), so the cache is
not always at least (attempted version + 1), and after a conflict whose
metadata reports u32::MAX the cache holds u32::MAX, not u32::MAX + 1.
The second run reaches the boundary from the empty cache: a conflict
reporting u32Max - 1 makes the next attempt use u32Max, after which the
cache still holds u32Max < u32Max + 1. -/
theorem C4_counterexample :
    alistGet2 (send_loop_body 11 exSessions MessageSlotID.Transactions ⟨3⟩ [7, 7]
        (Except.ok (conflictAck u32Max)) []).sv MessageSlotID.Transactions ⟨3⟩
        = some u32Max
      ∧ alistGet2 (send_loop_body 11 exSessions MessageSlotID.Transactions ⟨3⟩ [7, 7]
          (Except.ok (conflictAck u32Max)) []).sv MessageSlotID.Transactions ⟨3⟩
          ≠ some (u32Max + 1)
      ∧ (sendMessageLoop 11 exSessions MessageSlotID.Transactions ⟨3⟩ [7, 7]
          c4Responses 0 [] 2).attemptVersions = [1, u32Max]
      ∧ alistGet2 (sendMessageLoop 11 exSessions MessageSlotID.Transactions ⟨3⟩ [7, 7]
          c4Responses 0 [] 2).slot_versions MessageSlotID.Transactions ⟨3⟩
          = some u32Max
      ∧ ¬ (u32Max + 1 ≤ u32Max) := by
  refine ⟨rfl, by decide, rfl, rfl, by decide⟩

/-- C4 (amended): right after every completed write attempt the cache
entry for the attempted slot equals min (attempted version + 1,
u32::MAX) — hence is at least attempted version + 1 whenever the
attempted version is below u32::MAX — and after a version-conflict
rejection carrying authoritative metadata the end-of-iteration cache
entry equals min (authoritative version + 1, u32::MAX). -/
theorem C4_amended (key : Nat) (sessions : List (MessageSlotID × StackerDBSession))
    (msg_id : MessageSlotID) (slot_id : SignerSlotID) (message_bytes : List Nat)
    (ack : StackerDBChunkAckData) (sv : SlotVersions)
    (hsess : (alistGet sessions msg_id).isSome = true) :
    (∀ svp ch,
        (send_loop_body key sessions msg_id slot_id message_bytes (Except.ok ack)
            sv).svPostPut = some svp →
        (send_loop_body key sessions msg_id slot_id message_bytes (Except.ok ack)
            sv).attempted = some ch →
        alistGet2 svp msg_id slot_id = some (satAdd1 ch.slot_version))
      ∧ (∀ c md, ack.accepted = false → ack.code = some c →
          StackerDBErrorCodes.from_code c = some StackerDBErrorCodes.DataAlreadyExists →
          ack.metadata = some md →
          alistGet2 (send_loop_body key sessions msg_id slot_id message_bytes
              (Except.ok ack) sv).sv msg_id slot_id = some (satAdd1 md.slot_version))
      ∧ (∀ v, v < u32Max → v + 1 ≤ satAdd1 v) := by
  refine ⟨?_, ?_, ?_⟩
  · intro svp ch hsvp hch
    obtain ⟨svp', hsvp', hentry⟩ := send_loop_body_postput key sessions msg_id slot_id
      message_bytes ack sv hsess
    have hatt := send_loop_body_attempted key sessions msg_id slot_id message_bytes
      (Except.ok ack) sv hsess
    have hsv : svp = svp' := by
      rw [hsvp] at hsvp'
      exact Option.some.inj hsvp'
    have hch2 : ch = (StackerDBChunkData.new slot_id.id
        (lookupOrSeedVersion sv msg_id slot_id).1 message_bytes).sign key :=
      Option.some.inj (hch.symm.trans hatt)
    rw [hsv, hch2, chunk_slot_version]
    exact hentry
  · intro c md hacc hcode hfc hmd
    exact (send_loop_body_conflict_md key sessions msg_id slot_id message_bytes ack sv
      c md hsess hacc hcode hfc hmd).2
  · intro v hv
    rw [satAdd1_of_lt hv]

/-- C4 witness: the amended statement at a conflict whose metadata
reports version 5, from the empty cache: the post-attempt cache holds 2
(attempted version 1 plus one), the end-of-iteration cache holds 6, and
below the bound the saturating advance is a plain increment. -/
theorem C4_witness :
    alistGet2 [(MessageSlotID.Transactions, [(⟨3⟩, 2)])] MessageSlotID.Transactions
        ⟨3⟩ = some 2
      ∧ alistGet2 (send_loop_body 11 exSessions MessageSlotID.Transactions ⟨3⟩ [7, 7]
          (Except.ok (conflictAck 5)) []).sv MessageSlotID.Transactions ⟨3⟩ = some 6
      ∧ 7 + 1 ≤ satAdd1 7 :=
  ⟨(C4_amended 11 exSessions MessageSlotID.Transactions ⟨3⟩ [7, 7] (conflictAck 5) []
      rfl).1 [(MessageSlotID.Transactions, [(⟨3⟩, 2)])]
      ⟨3, 1, [7, 7], [11, 3, 1, 7, 7]⟩ rfl rfl,
   (C4_amended 11 exSessions MessageSlotID.Transactions ⟨3⟩ [7, 7] (conflictAck 5) []
      rfl).2.1 0 ⟨3, 5, 0, 0⟩ rfl rfl rfl rfl,
   (C4_amended 11 exSessions MessageSlotID.Transactions ⟨3⟩ [7, 7] (conflictAck 5) []
      rfl).2.2 7 (by decide)⟩

/-- C5: the batched read never returns an envelope whose reward cycle
differs from the requested one, for any codec, any fetch outcome, and
any mix of matching and non-matching chunks. -/
theorem C5_epoch_filter (decode : List Nat → Option SignerMessage)
    (fetched : Except ClientError (List (Option (List Nat)))) (reward_cycle : Nat)
    (msgs : List SignerMessage)
    (h : get_messages decode fetched reward_cycle = Except.ok msgs) :
    ∀ m ∈ msgs, m.reward_cycle = reward_cycle := by
  cases fetched with
  | error e => simp [get_messages] at h
  | ok chunks =>
    simp only [get_messages] at h
    injection h with h2
    intro m hm
    rw [← h2] at hm
    exact collectMessages_reward_cycle decode reward_cycle chunks m hm

/-- C5 witness: a mixed batch (epoch-7 packet, absent slot, epoch-8
packet, epoch-7 transactions, undecodable bytes) read at epoch 7: a
surviving envelope carries epoch 7. -/
theorem C5_witness :
    (⟨7, StackerDBMessage.Packet ⟨10⟩⟩ : SignerMessage).reward_cycle = 7 :=
  C5_epoch_filter exDecode
    (Except.ok [some [1], none, some [2], some [3], some [9]]) 7
    (collectMessages exDecode [some [1], none, some [2], some [3], some [9]] 7) rfl
    ⟨7, StackerDBMessage.Packet ⟨10⟩⟩ (by decide)

/-- C6: when every requested slot is absent or holds bytes the codec
cannot decode (the real codec decodes no empty buffer), the batched read
returns the empty list as a success; and for any successfully fetched
batch the read never fails — decode failures only shrink the result. -/
theorem C6_degrades_gracefully (decode : List Nat → Option SignerMessage)
    (chunks : List (Option (List Nat))) (reward_cycle : Nat) :
    ((∀ c ∈ chunks, ∀ data, c = some data → decode data = none) →
        get_messages decode (Except.ok chunks) reward_cycle = Except.ok [])
      ∧ ∃ msgs, get_messages decode (Except.ok chunks) reward_cycle
          = Except.ok msgs := by
  constructor
  · intro h
    simp only [get_messages]
    rw [collectMessages_all_skipped decode reward_cycle chunks h]
  · exact ⟨collectMessages decode chunks reward_cycle, rfl⟩

/-- C6 witness: a batch of an absent slot, an empty buffer, and
undecodable bytes yields the successful empty result. -/
theorem C6_witness :
    get_messages exDecode (Except.ok [none, some [], some [9]]) 7 = Except.ok []
      ∧ ∃ msgs, get_messages exDecode (Except.ok [none, some [], some [9]]) 7
          = Except.ok msgs :=
  ⟨(C6_degrades_gracefully exDecode [none, some [], some [9]] 7).1 (by
      intro c hc data hdc
      subst hdc
      simp only [List.mem_cons, List.not_mem_nil, or_false] at hc
      rcases hc with hc | hc | hc
      · exact absurd hc (by simp)
      · injection hc with hd
        subst hd
        rfl
      · injection hc with hd
        subst hd
        rfl),
   (C6_degrades_gracefully exDecode [none, some [], some [9]] 7).2⟩

/-- C7: get_dkg_packets concatenates, in the fixed protocol order of the
six DKG categories, each category's decoded packet payloads — whatever
data each category's session returned — and envelopes in those
categories whose payload is not a packet are dropped (filterMap), never
an error. -/
theorem C7_category_order (db : StackerDB) (decode : List Nat → Option SignerMessage)
    (env : MessageSlotID → Except ClientError (List (Option (List Nat))))
    (chunksF : MessageSlotID → List (Option (List Nat)))
    (hsess : ∀ s ∈ packet_slots,
      (alistGet db.signers_message_stackerdb_sessions s).isSome = true)
    (henv : ∀ s ∈ packet_slots, env s = Except.ok (chunksF s)) :
    db.get_dkg_packets decode env
      = Except.ok ((packet_slots.map (fun s =>
          (collectMessages decode (chunksF s) db.reward_cycle).filterMap
            packetOfMessage)).flatten) := by
  unfold StackerDB.get_dkg_packets
  rw [dkgPacketsLoop_ok db.signers_message_stackerdb_sessions decode env
    db.reward_cycle chunksF packet_slots [] hsess henv]
  rw [List.nil_append]

/-- C7 witness: with packet data in the DkgBegin and DkgEnd slots and a
wrong-variant (transactions) envelope in the DkgPublicShares slot, the
result is the two packets in category order and no error. -/
theorem C7_witness :
    exClient.get_dkg_packets exDecode exDkgEnv = Except.ok [⟨40⟩, ⟨10⟩] := by
  rw [C7_category_order exClient exDecode exDkgEnv exDkgChunks (by decide)
    (fun s _ => rfl)]
  rfl

/-- C8: get_encrypted_signer_state returns the successful "no state"
outcome (Ok none, not an error) in each of the three scenarios: the
requested slot's chunk is absent, the chunk's payload is empty, and the
chunk decodes to a payload of the wrong variant. -/
theorem C8_no_state (db : StackerDB)
    (decodeMessage : List Nat → Except String StackerDBMessage)
    (signer_id : SignerSlotID)
    (hsess : (alistGet db.signers_message_stackerdb_sessions
      MessageSlotID.EncryptedSignerState).isSome = true) :
    (∀ chunks : List (Option (List Nat)), chunks.getLast? = some none →
        db.get_encrypted_signer_state decodeMessage (Except.ok chunks) signer_id
          = Except.ok none)
      ∧ (∀ chunks : List (Option (List Nat)), chunks.getLast? = some (some []) →
          db.get_encrypted_signer_state decodeMessage (Except.ok chunks) signer_id
            = Except.ok none)
      ∧ (∀ (chunks : List (Option (List Nat))) (data : List Nat)
            (m : StackerDBMessage),
          chunks.getLast? = some (some data) →
          decodeMessage data = Except.ok m →
          (∀ st, m ≠ StackerDBMessage.EncryptedSignerState st) →
          db.get_encrypted_signer_state decodeMessage (Except.ok chunks) signer_id
            = Except.ok none) := by
  obtain ⟨sess, hs⟩ := Option.isSome_iff_exists.mp hsess
  refine ⟨?_, ?_, ?_⟩
  · intro chunks hlast
    simp [StackerDB.get_encrypted_signer_state, hs, hlast]
  · intro chunks hlast
    simp [StackerDB.get_encrypted_signer_state, hs, hlast]
  · intro chunks data m hlast hdec hnot
    cases data with
    | nil => simp [StackerDB.get_encrypted_signer_state, hs, hlast]
    | cons b bs =>
      cases m with
      | EncryptedSignerState st => exact absurd rfl (hnot st)
      | Packet p => simp [StackerDB.get_encrypted_signer_state, hs, hlast, hdec]
      | Transactions txs => simp [StackerDB.get_encrypted_signer_state, hs, hlast, hdec]

/-- C8 witness: the three scenarios at concrete inputs — absent chunk,
empty payload, and a packet payload sitting in the state slot — each
produce Ok none. -/
theorem C8_witness :
    exClient.get_encrypted_signer_state exDecodeMsg (Except.ok [none]) ⟨3⟩
        = Except.ok none
      ∧ exClient.get_encrypted_signer_state exDecodeMsg (Except.ok [some []]) ⟨3⟩
        = Except.ok none
      ∧ exClient.get_encrypted_signer_state exDecodeMsg (Except.ok [some [5]]) ⟨3⟩
        = Except.ok none :=
  ⟨(C8_no_state exClient exDecodeMsg ⟨3⟩ rfl).1 [none] rfl,
   (C8_no_state exClient exDecodeMsg ⟨3⟩ rfl).2.1 [some []] rfl,
   (C8_no_state exClient exDecodeMsg ⟨3⟩ rfl).2.2 [some [5]] [5]
     (StackerDBMessage.Packet ⟨50⟩) rfl rfl (fun st => by simp)⟩

/-- C9: when the chunk in the encrypted-state slot is non-empty and the
codec fails on it, get_encrypted_signer_state propagates the failure as
a codec error to the caller instead of returning the "no state" success
— unlike the batched read path, which skips undecodable bytes. -/
theorem C9_codec_error (db : StackerDB)
    (decodeMessage : List Nat → Except String StackerDBMessage)
    (signer_id : SignerSlotID) (chunks : List (Option (List Nat)))
    (data : List Nat) (e : String)
    (hsess : (alistGet db.signers_message_stackerdb_sessions
      MessageSlotID.EncryptedSignerState).isSome = true)
    (hlast : chunks.getLast? = some (some data))
    (hne : data ≠ [])
    (hdec : decodeMessage data = Except.error e) :
    db.get_encrypted_signer_state decodeMessage (Except.ok chunks) signer_id
      = Except.error (ClientError.CodecError e) := by
  obtain ⟨sess, hs⟩ := Option.isSome_iff_exists.mp hsess
  cases data with
  | nil => exact absurd rfl hne
  | cons b bs => simp [StackerDB.get_encrypted_signer_state, hs, hlast, hdec]

/-- C9 witness: non-empty undecodable bytes in the state slot produce
the propagated codec error. -/
theorem C9_witness :
    exClient.get_encrypted_signer_state exDecodeMsg (Except.ok [some [9]]) ⟨3⟩
      = Except.error (ClientError.CodecError "bad") :=
  C9_codec_error exClient exDecodeMsg ⟨3⟩ [some [9]] [9] "bad" rfl rfl (by simp) rfl

/-- C10: a client built by StackerDB::new has a session for every member
of the closed message-category enumeration, so (a) every session lookup
succeeds, (b) the missing-session panic of the publish loop is
unreachable, (c) the encrypted-state read returns NotConnected only when
the transport itself produced it, and (d) the DKG read returns
NotConnected only when some category's fetch produced it. -/
theorem C10_sessions_complete (host : String) (key : Nat) (is_mainnet : Bool)
    (reward_cycle : Nat) (slot : SignerSlotID) :
    (∀ msg_id : MessageSlotID,
        (alistGet (StackerDB.new host key is_mainnet reward_cycle
          slot).signers_message_stackerdb_sessions msg_id).isSome = true)
      ∧ (∀ (msg_id : MessageSlotID) (slot_id : SignerSlotID)
            (message_bytes : List Nat)
            (responses : Nat → Except ClientError StackerDBChunkAckData)
            (k : Nat) (sv : SlotVersions) (fuel : Nat),
          (sendMessageLoop key (StackerDB.new host key is_mainnet reward_cycle
              slot).signers_message_stackerdb_sessions msg_id slot_id message_bytes
            responses k sv fuel).outcome ≠ SendOutcome.panicked)
      ∧ (∀ (decodeMessage : List Nat → Except String StackerDBMessage)
            (fetched : Except ClientError (List (Option (List Nat))))
            (signer_id : SignerSlotID),
          (StackerDB.new host key is_mainnet reward_cycle
              slot).get_encrypted_signer_state decodeMessage fetched signer_id
            = Except.error ClientError.NotConnected →
          fetched = Except.error ClientError.NotConnected)
      ∧ (∀ (decode : List Nat → Option SignerMessage)
            (env : MessageSlotID → Except ClientError (List (Option (List Nat)))),
          (StackerDB.new host key is_mainnet reward_cycle slot).get_dkg_packets
              decode env = Except.error ClientError.NotConnected →
          ∃ s, s ∈ packet_slots
            ∧ env s = Except.error ClientError.NotConnected) := by
  refine ⟨?_, ?_, ?_, ?_⟩
  · exact new_sessions_isSome host key is_mainnet reward_cycle slot
  · intro msg_id slot_id message_bytes responses k sv fuel
    exact sendMessageLoop_not_panicked key _ msg_id slot_id message_bytes responses
      (new_sessions_isSome host key is_mainnet reward_cycle slot msg_id) fuel k sv
  · intro decodeMessage fetched signer_id h
    obtain ⟨sess, hs⟩ := Option.isSome_iff_exists.mp
      (new_sessions_isSome host key is_mainnet reward_cycle slot
        MessageSlotID.EncryptedSignerState)
    cases fetched with
    | error e =>
      simp only [StackerDB.get_encrypted_signer_state, hs] at h
      simp at h
      rw [h]
    | ok chunks =>
      simp only [StackerDB.get_encrypted_signer_state, hs] at h
      cases hlast : chunks.getLast? with
      | none =>
        rw [hlast] at h
        simp at h
      | some c =>
        cases c with
        | none =>
          rw [hlast] at h
          simp at h
        | some chunk =>
          rw [hlast] at h
          cases chunk with
          | nil => simp at h
          | cons b bs =>
            cases hd : decodeMessage (b :: bs) with
            | error e2 => simp [hd] at h
            | ok m =>
              cases m with
              | Packet p => simp [hd] at h
              | Transactions txs => simp [hd] at h
              | EncryptedSignerState st => simp [hd] at h
  · intro decode env h
    unfold StackerDB.get_dkg_packets at h
    exact dkgPacketsLoop_notConnected
      (StackerDB.new host key is_mainnet reward_cycle
        slot).signers_message_stackerdb_sessions decode env reward_cycle packet_slots
      [] (fun s _ => new_sessions_isSome host key is_mainnet reward_cycle slot s) h

/-- C10 witness: the parts at concrete inputs — the Transactions session
exists, a publish run does not panic, and when the transport itself
fails with NotConnected both read paths merely propagate it. -/
theorem C10_witness :
    (alistGet exSessions MessageSlotID.Transactions).isSome = true
      ∧ (sendMessageLoop 11 exSessions MessageSlotID.Transactions ⟨3⟩ [7, 7]
          acceptedOracle 0 [] 1).outcome ≠ SendOutcome.panicked
      ∧ (Except.error ClientError.NotConnected
            : Except ClientError (List (Option (List Nat))))
          = Except.error ClientError.NotConnected
      ∧ ∃ s, s ∈ packet_slots
          ∧ (fun _ : MessageSlotID =>
              (Except.error ClientError.NotConnected
                : Except ClientError (List (Option (List Nat))))) s
            = Except.error ClientError.NotConnected :=
  ⟨(C10_sessions_complete "host" 11 true 7 ⟨3⟩).1 MessageSlotID.Transactions,
   (C10_sessions_complete "host" 11 true 7 ⟨3⟩).2.1 MessageSlotID.Transactions ⟨3⟩
     [7, 7] acceptedOracle 0 [] 1,
   (C10_sessions_complete "host" 11 true 7 ⟨3⟩).2.2.1 exDecodeMsg
     (Except.error ClientError.NotConnected) ⟨3⟩ rfl,
   (C10_sessions_complete "host" 11 true 7 ⟨3⟩).2.2.2 exDecode
     (fun _ => Except.error ClientError.NotConnected) rfl⟩

end StackerDBSpec
